import Mathlib

/-!
Verification of the `filmovi` CRUD service (`src/index.js`).

The program is five Express handlers over one MySQL table
`filmovi(id, naslov, godina, zanr, created_at)`, each issuing one or two
parameterized statements through `pool.query(sqlText, params)`.

Shallow embedding:
* A JSON body is an association list of field name to `JVal`
  (JS destructuring of an absent key yields `undefined`, which the driver
  binds as SQL NULL, exactly like an explicit JSON `null`; both are
  `SqlVal.vnull` after `toParam`).
* The database is a list of rows plus the AUTO_INCREMENT counter; the
  query engine is `runQuery`, dispatching on the SQL text of the five
  constant statements the program issues.
* The path parameter `:id` is modelled as the integer value that MySQL
  compares the `id` column against.
* `affectedRows` of an UPDATE is modelled as the number of rows matched
  by the WHERE clause, the convention the surrounding code relies on;
  `affectedRows` of a DELETE is the number of rows removed.

Each handler returns the HTTP response, the post-state of the table, and
the list of `(sql text, bound parameters)` pairs sent to the pool, in
order.
-/

namespace Filmovi

/-- A JSON value occurring in a request body (`express.json` parsing). -/
inductive JVal where
  | jnull
  | jstr (s : String)
  | jint (n : Int)
deriving DecidableEq, Repr

/-- A value bound into a SQL placeholder, or stored in a nullable column. -/
inductive SqlVal where
  | vnull
  | vstr (s : String)
  | vint (n : Int)
deriving DecidableEq, Repr

/-- One row of the `filmovi` table. -/
structure Row where
  id : Int
  naslov : SqlVal
  godina : SqlVal
  zanr : SqlVal
  created_at : Nat
deriving DecidableEq, Repr

/-- The `filmovi` table together with its AUTO_INCREMENT counter. -/
structure DB where
  rows : List Row
  nextId : Int
deriving DecidableEq, Repr

/-- A statement sent to `pool.query`: constant SQL text plus the bound
parameter array. -/
structure SqlQuery where
  text : String
  params : List SqlVal
deriving DecidableEq, Repr

/-- What the driver returns for a statement: a result set for SELECT, an
OK packet (affectedRows, insertId) for INSERT/UPDATE/DELETE. -/
inductive QueryResult where
  | resultSet (rows : List Row)
  | okPacket (affectedRows : Nat) (insertId : Int)
deriving DecidableEq, Repr

/-- The body of an HTTP response as the handlers produce it. -/
inductive RespBody where
  | jsonRows (rows : List Row)
  | jsonRow (r : Option Row)
  | jsonMessage (m : String)
  | empty
deriving DecidableEq, Repr

/-- An HTTP response: status code and body. -/
structure Response where
  status : Nat
  body : RespBody
deriving DecidableEq, Repr

/-- The 404 message body used by the three id-addressed handlers. -/
def notFoundMsg : String := "Film nije pronađen"

/-- SQL text of `GET /filmovi` (index.js line 102). -/
def listSql : String := "SELECT * FROM filmovi"

/-- SQL text of the select-by-id used by GET by id, POST re-fetch and PUT
re-fetch (index.js lines 128, 165, 209). -/
def selectByIdSql : String := "SELECT * FROM filmovi WHERE id = ?"

/-- SQL text of `POST /filmovi` (index.js line 162). -/
def insertSql : String := "INSERT INTO filmovi (naslov, godina, zanr) VALUES (?, ?, ?)"

/-- SQL text of `PUT /filmovi/:id` (index.js line 205). -/
def updateSql : String :=
  "UPDATE filmovi SET naslov = COALESCE(?, naslov), godina = COALESCE(?, godina), zanr = COALESCE(?, zanr) WHERE id = ?"

/-- SQL text of `DELETE /filmovi/:id` (index.js line 231). -/
def deleteSql : String := "DELETE FROM filmovi WHERE id = ?"

/-- Conversion of a destructured body field to the bound SQL value:
an absent key (JS `undefined`) and JSON `null` both bind as SQL NULL. -/
def toParam : Option JVal → SqlVal
  | none => .vnull
  | some .jnull => .vnull
  | some (.jstr s) => .vstr s
  | some (.jint n) => .vint n

/-- SQL `COALESCE(p, col)`: the bound value unless it is NULL. -/
def coalesce (p col : SqlVal) : SqlVal :=
  match p with
  | .vnull => col
  | p => p

/-- Whether the WHERE `id = ?` filter with bound value `p` matches row `r`. -/
def matchesId (p : SqlVal) (r : Row) : Bool :=
  decide (p = SqlVal.vint r.id)

/-- The query engine: executes one of the five constant statements of the
program against the table state. `now` is the clock the storage uses for
`created_at` on insert. -/
def runQuery (now : Nat) (db : DB) (q : SqlQuery) : QueryResult × DB :=
  if q.text = listSql then
    (.resultSet db.rows, db)
  else if q.text = selectByIdSql then
    (.resultSet (db.rows.filter (matchesId (q.params.getD 0 .vnull))), db)
  else if q.text = insertSql then
    let newRow : Row :=
      { id := db.nextId
        naslov := q.params.getD 0 .vnull
        godina := q.params.getD 1 .vnull
        zanr := q.params.getD 2 .vnull
        created_at := now }
    (.okPacket 1 db.nextId, { rows := db.rows ++ [newRow], nextId := db.nextId + 1 })
  else if q.text = updateSql then
    let pid := q.params.getD 3 .vnull
    let matched := (db.rows.filter (matchesId pid)).length
    let rows' := db.rows.map (fun r =>
      if matchesId pid r then
        { r with
          naslov := coalesce (q.params.getD 0 .vnull) r.naslov
          godina := coalesce (q.params.getD 1 .vnull) r.godina
          zanr := coalesce (q.params.getD 2 .vnull) r.zanr }
      else r)
    (.okPacket matched 0, { db with rows := rows' })
  else if q.text = deleteSql then
    let pid := q.params.getD 0 .vnull
    let removed := (db.rows.filter (matchesId pid)).length
    (.okPacket removed 0, { db with rows := db.rows.filter (fun r => !(matchesId pid r)) })
  else
    (.okPacket 0 0, db)

/-- Rows of a result set (`rows` after destructuring `[rows] = await pool.query`). -/
def resultRows : QueryResult → List Row
  | .resultSet rs => rs
  | .okPacket _ _ => []

/-- `result.affectedRows` of an OK packet. -/
def resultAffected : QueryResult → Nat
  | .resultSet _ => 0
  | .okPacket a _ => a

/-- `result.insertId` of an OK packet. -/
def resultInsertId : QueryResult → Int
  | .resultSet _ => 0
  | .okPacket _ i => i

/-- `app.get('/filmovi')`, index.js lines 101-104. -/
def listHandler (now : Nat) (db : DB) : Response × DB × List SqlQuery :=
  let q : SqlQuery := ⟨listSql, []⟩
  let r := runQuery now db q
  (⟨200, .jsonRows (resultRows r.1)⟩, r.2, [q])

/-- `app.get('/filmovi/:id')`, index.js lines 127-131. -/
def getByIdHandler (now : Nat) (db : DB) (id : Int) : Response × DB × List SqlQuery :=
  let q : SqlQuery := ⟨selectByIdSql, [.vint id]⟩
  let r := runQuery now db q
  let rows := resultRows r.1
  if rows.isEmpty then
    (⟨404, .jsonMessage notFoundMsg⟩, r.2, [q])
  else
    (⟨200, .jsonRow rows.head?⟩, r.2, [q])

/-- `app.post('/filmovi')`, index.js lines 159-167: destructure the three
fields from the body, insert, then re-fetch by the generated id. -/
def createHandler (now : Nat) (db : DB) (body : List (String × JVal)) :
    Response × DB × List SqlQuery :=
  let naslov := toParam (body.lookup "naslov")
  let godina := toParam (body.lookup "godina")
  let zanr := toParam (body.lookup "zanr")
  let q1 : SqlQuery := ⟨insertSql, [naslov, godina, zanr]⟩
  let r1 := runQuery now db q1
  let q2 : SqlQuery := ⟨selectByIdSql, [.vint (resultInsertId r1.1)]⟩
  let r2 := runQuery now r1.2 q2
  (⟨201, .jsonRow (resultRows r2.1).head?⟩, r2.2, [q1, q2])

/-- `app.put('/filmovi/:id')`, index.js lines 202-211: coalescing update,
404 when `affectedRows` is zero, otherwise re-fetch the row. -/
def updateHandler (now : Nat) (db : DB) (id : Int) (body : List (String × JVal)) :
    Response × DB × List SqlQuery :=
  let naslov := toParam (body.lookup "naslov")
  let godina := toParam (body.lookup "godina")
  let zanr := toParam (body.lookup "zanr")
  let q1 : SqlQuery := ⟨updateSql, [naslov, godina, zanr, .vint id]⟩
  let r1 := runQuery now db q1
  if resultAffected r1.1 = 0 then
    (⟨404, .jsonMessage notFoundMsg⟩, r1.2, [q1])
  else
    let q2 : SqlQuery := ⟨selectByIdSql, [.vint id]⟩
    let r2 := runQuery now r1.2 q2
    (⟨200, .jsonRow (resultRows r2.1).head?⟩, r2.2, [q1, q2])

/-- `app.delete('/filmovi/:id')`, index.js lines 230-234. -/
def deleteHandler (now : Nat) (db : DB) (id : Int) : Response × DB × List SqlQuery :=
  let q : SqlQuery := ⟨deleteSql, [.vint id]⟩
  let r := runQuery now db q
  if resultAffected r.1 = 0 then
    (⟨404, .jsonMessage notFoundMsg⟩, r.2, [q])
  else
    (⟨204, .empty⟩, r.2, [q])

/-- The row the INSERT of `createHandler` adds for a given request body:
`id` and `created_at` are generated by storage, the three data columns are
the bound body fields. -/
def insertedRow (now : Nat) (db : DB) (body : List (String × JVal)) : Row :=
  { id := db.nextId
    naslov := toParam (body.lookup "naslov")
    godina := toParam (body.lookup "godina")
    zanr := toParam (body.lookup "zanr")
    created_at := now }

/-- Effect of the coalescing UPDATE statement on one matched row. -/
def updRow (body : List (String × JVal)) (r : Row) : Row :=
  { r with
    naslov := coalesce (toParam (body.lookup "naslov")) r.naslov
    godina := coalesce (toParam (body.lookup "godina")) r.godina
    zanr := coalesce (toParam (body.lookup "zanr")) r.zanr }

/-- Table contents after the UPDATE statement of `updateHandler db id body`. -/
def updatedRows (db : DB) (id : Int) (body : List (String × JVal)) : List Row :=
  db.rows.map (fun r => if matchesId (.vint id) r then updRow body r else r)

/-! Characterization of `runQuery` on each of the five statement texts. -/

lemma runQuery_listSql (now : Nat) (db : DB) (ps : List SqlVal) :
    runQuery now db ⟨listSql, ps⟩ = (.resultSet db.rows, db) := by
  simp [runQuery]

lemma runQuery_selectByIdSql (now : Nat) (db : DB) (ps : List SqlVal) :
    runQuery now db ⟨selectByIdSql, ps⟩ =
      (.resultSet (db.rows.filter (matchesId (ps.getD 0 .vnull))), db) := by
  simp [runQuery, listSql, selectByIdSql, insertSql, updateSql, deleteSql]

lemma runQuery_insertSql (now : Nat) (db : DB) (ps : List SqlVal) :
    runQuery now db ⟨insertSql, ps⟩ =
      (.okPacket 1 db.nextId,
       { rows := db.rows ++
           [{ id := db.nextId
              naslov := ps.getD 0 .vnull
              godina := ps.getD 1 .vnull
              zanr := ps.getD 2 .vnull
              created_at := now }]
         nextId := db.nextId + 1 }) := by
  simp [runQuery, listSql, selectByIdSql, insertSql, updateSql, deleteSql]

lemma runQuery_updateSql (now : Nat) (db : DB) (ps : List SqlVal) :
    runQuery now db ⟨updateSql, ps⟩ =
      (.okPacket ((db.rows.filter (matchesId (ps.getD 3 .vnull))).length) 0,
       { db with rows := db.rows.map (fun r =>
           if matchesId (ps.getD 3 .vnull) r then
             { r with
               naslov := coalesce (ps.getD 0 .vnull) r.naslov
               godina := coalesce (ps.getD 1 .vnull) r.godina
               zanr := coalesce (ps.getD 2 .vnull) r.zanr }
           else r) }) := by
  simp [runQuery, listSql, selectByIdSql, insertSql, updateSql, deleteSql]

lemma runQuery_deleteSql (now : Nat) (db : DB) (ps : List SqlVal) :
    runQuery now db ⟨deleteSql, ps⟩ =
      (.okPacket ((db.rows.filter (matchesId (ps.getD 0 .vnull))).length) 0,
       { db with rows := db.rows.filter (fun r => !(matchesId (ps.getD 0 .vnull) r)) }) := by
  simp [runQuery, listSql, selectByIdSql, insertSql, updateSql, deleteSql]

/-! Characterization of the five handlers in terms of the table state. -/

lemma listHandler_eq (now : Nat) (db : DB) :
    listHandler now db = (⟨200, .jsonRows db.rows⟩, db, [⟨listSql, []⟩]) := by
  simp [listHandler, runQuery_listSql, resultRows]

lemma getByIdHandler_eq (now : Nat) (db : DB) (id : Int) :
    getByIdHandler now db id =
      ((if (db.rows.filter (matchesId (.vint id))).isEmpty then
          (⟨404, .jsonMessage notFoundMsg⟩ : Response)
        else
          ⟨200, .jsonRow (db.rows.filter (matchesId (.vint id))).head?⟩),
       db, [⟨selectByIdSql, [.vint id]⟩]) := by
  by_cases h : (db.rows.filter (matchesId (.vint id))).isEmpty <;>
    simp [getByIdHandler, runQuery_selectByIdSql, resultRows, List.getD, h]

lemma createHandler_eq (now : Nat) (db : DB) (body : List (String × JVal)) :
    createHandler now db body =
      (⟨201, .jsonRow ((db.rows ++ [insertedRow now db body]).filter
          (matchesId (.vint db.nextId))).head?⟩,
       ⟨db.rows ++ [insertedRow now db body], db.nextId + 1⟩,
       [⟨insertSql, [toParam (body.lookup "naslov"), toParam (body.lookup "godina"),
          toParam (body.lookup "zanr")]⟩,
        ⟨selectByIdSql, [.vint db.nextId]⟩]) := by
  simp [createHandler, runQuery_insertSql, runQuery_selectByIdSql, resultRows,
    resultInsertId, insertedRow, List.getD]

lemma updateHandler_eq (now : Nat) (db : DB) (id : Int) (body : List (String × JVal)) :
    updateHandler now db id body =
      (if (db.rows.filter (matchesId (.vint id))).length = 0 then
        ((⟨404, .jsonMessage notFoundMsg⟩ : Response),
         ({ db with rows := updatedRows db id body } : DB),
         [⟨updateSql, [toParam (body.lookup "naslov"), toParam (body.lookup "godina"),
            toParam (body.lookup "zanr"), .vint id]⟩])
      else
        (⟨200, .jsonRow ((updatedRows db id body).filter (matchesId (.vint id))).head?⟩,
         { db with rows := updatedRows db id body },
         [⟨updateSql, [toParam (body.lookup "naslov"), toParam (body.lookup "godina"),
            toParam (body.lookup "zanr"), .vint id]⟩,
          ⟨selectByIdSql, [.vint id]⟩])) := by
  by_cases h : (db.rows.filter (matchesId (.vint id))).length = 0 <;>
    simp [updateHandler, runQuery_updateSql, runQuery_selectByIdSql, resultAffected,
      resultRows, updatedRows, updRow, List.getD, h]

lemma deleteHandler_eq (now : Nat) (db : DB) (id : Int) :
    deleteHandler now db id =
      (if (db.rows.filter (matchesId (.vint id))).length = 0 then
        ((⟨404, .jsonMessage notFoundMsg⟩ : Response),
         ({ db with rows := db.rows.filter (fun r => !(matchesId (.vint id) r)) } : DB),
         [⟨deleteSql, [.vint id]⟩])
      else
        (⟨204, .empty⟩,
         { db with rows := db.rows.filter (fun r => !(matchesId (.vint id) r)) },
         [⟨deleteSql, [.vint id]⟩])) := by
  by_cases h : (db.rows.filter (matchesId (.vint id))).length = 0 <;>
    simp [deleteHandler, runQuery_deleteSql, resultAffected, List.getD, h]

/-- Mapping a conditional rewrite over rows none of which satisfy the
condition is the identity. -/
lemma map_ite_of_none_matches {p : Row → Bool} {f : Row → Row} {l : List Row}
    (h : ∀ r ∈ l, p r = false) :
    l.map (fun r => if p r then f r else r) = l := by
  induction l with
  | nil => rfl
  | cons a t ih =>
    have ha : p a = false := h a (List.mem_cons_self a t)
    simp only [List.map_cons, ha, Bool.false_eq_true, if_false]
    rw [ih (fun r hr => h r (List.mem_cons_of_mem a hr))]

/-- C8: `list()` responds with status 200 and a JSON array that is exactly
the current contents of the table (hence the same set of rows and the same
cardinality), in whatever order storage returns. -/
theorem list_returns_all_rows (now : Nat) (db : DB) :
    (listHandler now db).1.status = 200 ∧
    (listHandler now db).1.body = .jsonRows db.rows := by
  simp [listHandler_eq]

/-- C10: the two read operations, `list()` and `getById(id)`, never modify
the table: the post-state equals the pre-state for every starting state and
every id. -/
theorem reads_do_not_modify (now : Nat) (db : DB) (id : Int) :
    (listHandler now db).2.1 = db ∧ (getByIdHandler now db id).2.1 = db := by
  simp [listHandler_eq, getByIdHandler_eq]

/-- C5: `delete(id)` immediately followed by `getById(id)` always produces
the 404 not-found response, whether or not the delete found a row. -/
theorem delete_then_getById_not_found (now now2 : Nat) (db : DB) (id : Int) :
    (getByIdHandler now2 (deleteHandler now db id).2.1 id).1 =
      (⟨404, .jsonMessage notFoundMsg⟩ : Response) := by
  rw [deleteHandler_eq]
  by_cases h : (db.rows.filter (matchesId (.vint id))).length = 0 <;>
    simp [h, getByIdHandler_eq, List.filter_filter]

/-- C1 (amended): every SQL statement any handler sends has a fixed constant
text, with request-derived values only in the bound-parameter array; list,
getById, create and delete always issue the same sequence of texts, while
update issues its re-fetch SELECT only when a row matched, so its statement
count (but never any statement's text) depends on the request. -/
theorem sql_text_constant (now : Nat) (db : DB) (id : Int)
    (body : List (String × JVal)) :
    (listHandler now db).2.2.map SqlQuery.text = [listSql] ∧
    (getByIdHandler now db id).2.2.map SqlQuery.text = [selectByIdSql] ∧
    (createHandler now db body).2.2.map SqlQuery.text = [insertSql, selectByIdSql] ∧
    (deleteHandler now db id).2.2.map SqlQuery.text = [deleteSql] ∧
    ((updateHandler now db id body).2.2.map SqlQuery.text = [updateSql] ∨
     (updateHandler now db id body).2.2.map SqlQuery.text = [updateSql, selectByIdSql]) := by
  refine ⟨by simp [listHandler_eq], by simp [getByIdHandler_eq],
    by simp [createHandler_eq], ?_, ?_⟩
  · rw [deleteHandler_eq]
    by_cases h : (db.rows.filter (matchesId (.vint id))).length = 0 <;> simp [h]
  · rw [updateHandler_eq]
    by_cases h : (db.rows.filter (matchesId (.vint id))).length = 0
    · exact Or.inl (by simp [h])
    · exact Or.inr (by simp [h])

/-- C1 (counterexample): two update runs that differ only in the request's
path id (the table and the body are identical) issue different SQL text
sequences: on a matching id the handler also sends the re-fetch SELECT, on a
non-matching id it does not. -/
theorem sql_text_differs_between_runs :
    (updateHandler 0 ⟨[⟨1, .vstr "A", .vnull, .vnull, 0⟩], 2⟩ 1
        [("naslov", JVal.jstr "B")]).2.2.map SqlQuery.text ≠
    (updateHandler 0 ⟨[⟨1, .vstr "A", .vnull, .vnull, 0⟩], 2⟩ 2
        [("naslov", JVal.jstr "B")]).2.2.map SqlQuery.text := by
  decide

/-- C3: update returns 404 with the message body exactly when no row has the
given id, and in that case the table is left completely unchanged; otherwise
it returns 200 with the updated row re-fetched from the post-update table. -/
theorem update_not_found_iff (now : Nat) (db : DB) (id : Int)
    (body : List (String × JVal)) :
    ((updateHandler now db id body).1.status = 404 ↔
      db.rows.filter (matchesId (.vint id)) = []) ∧
    ((updateHandler now db id body).1.status = 404 →
      (updateHandler now db id body).1.body = .jsonMessage notFoundMsg ∧
      (updateHandler now db id body).2.1 = db) ∧
    ((updateHandler now db id body).1.status ≠ 404 →
      (updateHandler now db id body).1.status = 200 ∧
      (updateHandler now db id body).2.1 = { db with rows := updatedRows db id body } ∧
      (updateHandler now db id body).1.body =
        .jsonRow (((updateHandler now db id body).2.1.rows.filter
          (matchesId (.vint id))).head?)) := by
  rw [updateHandler_eq]
  by_cases h : (db.rows.filter (matchesId (.vint id))).length = 0
  · have hnil : db.rows.filter (matchesId (.vint id)) = [] := List.length_eq_zero.mp h
    have hall : ∀ r ∈ db.rows, matchesId (.vint id) r = false := by
      intro r hr
      simpa using List.filter_eq_nil_iff.mp hnil r hr
    have hid : updatedRows db id body = db.rows := by
      unfold updatedRows
      exact map_ite_of_none_matches hall
    simp [h, hnil, hid]
  · have hne : db.rows.filter (matchesId (.vint id)) ≠ [] := by
      intro hh
      exact h (by simp [hh])
    simp [h, hne, updatedRows]

/-- C3 (witness): updating id 5 on an empty table returns 404 and leaves the
table unchanged. -/
theorem update_not_found_iff_witness :
    (updateHandler 0 ⟨[], 1⟩ 5 []).1.status = 404 ∧
    (updateHandler 0 ⟨[], 1⟩ 5 []).2.1 = (⟨[], 1⟩ : DB) := by
  have h := update_not_found_iff 0 ⟨[], 1⟩ 5 []
  have h404 : (updateHandler 0 ⟨[], 1⟩ 5 []).1.status = 404 := h.1.mpr rfl
  exact ⟨h404, (h.2.1 h404).2⟩

/-- C6: delete returns 404 with the message body exactly when zero rows were
affected, and then the table (in particular its row count) is unchanged;
otherwise it responds 204 with an empty body. -/
theorem delete_not_found_iff (now : Nat) (db : DB) (id : Int) :
    ((deleteHandler now db id).1.status = 404 ↔
      db.rows.filter (matchesId (.vint id)) = []) ∧
    ((deleteHandler now db id).1.status = 404 →
      (deleteHandler now db id).1.body = .jsonMessage notFoundMsg ∧
      (deleteHandler now db id).2.1 = db ∧
      (deleteHandler now db id).2.1.rows.length = db.rows.length) ∧
    ((deleteHandler now db id).1.status ≠ 404 →
      (deleteHandler now db id).1.status = 204 ∧
      (deleteHandler now db id).1.body = .empty) := by
  rw [deleteHandler_eq]
  by_cases h : (db.rows.filter (matchesId (.vint id))).length = 0
  · have hnil : db.rows.filter (matchesId (.vint id)) = [] := List.length_eq_zero.mp h
    have hall : ∀ r ∈ db.rows, matchesId (.vint id) r = false := by
      intro r hr
      simpa using List.filter_eq_nil_iff.mp hnil r hr
    have hself : db.rows.filter (fun r => !(matchesId (.vint id) r)) = db.rows := by
      refine List.filter_eq_self.mpr ?_
      intro a ha
      simp [hall a ha]
    simp [h, hnil, hself]
  · have hne : db.rows.filter (matchesId (.vint id)) ≠ [] := by
      intro hh
      exact h (by simp [hh])
    simp [h, hne]

/-- C6 (witness): deleting id 5 from an empty table returns 404 and leaves
the table (and its row count) unchanged. -/
theorem delete_not_found_iff_witness :
    (deleteHandler 0 ⟨[], 1⟩ 5).1.status = 404 ∧
    (deleteHandler 0 ⟨[], 1⟩ 5).2.1 = (⟨[], 1⟩ : DB) := by
  have h := delete_not_found_iff 0 ⟨[], 1⟩ 5
  have h404 : (deleteHandler 0 ⟨[], 1⟩ 5).1.status = 404 := h.1.mpr rfl
  exact ⟨h404, (h.2.1 h404).2.1⟩

/-- C4: an update rewrites exactly the rows matching the id by the coalescing
row transform: a body field that is present and non-null replaces the stored
value, an absent or null field leaves it unchanged, the row's id and
created_at are never touched, and all other rows are unchanged; in
particular a body carrying only naslov rewrites only the naslov column of
the matched row. -/
theorem update_coalesce_frame (now : Nat) (db : DB) (id : Int)
    (body : List (String × JVal)) (X : String) :
    (updateHandler now db id body).2.1.rows =
      db.rows.map (fun r => if matchesId (.vint id) r then updRow body r else r) ∧
    (∀ old, coalesce (toParam none) old = old) ∧
    (∀ old, coalesce (toParam (some JVal.jnull)) old = old) ∧
    (∀ s old, coalesce (toParam (some (JVal.jstr s))) old = SqlVal.vstr s) ∧
    (∀ n old, coalesce (toParam (some (JVal.jint n))) old = SqlVal.vint n) ∧
    (∀ r, (updRow body r).id = r.id ∧ (updRow body r).created_at = r.created_at) ∧
    (updateHandler now db id [("naslov", JVal.jstr X)]).2.1.rows =
      db.rows.map (fun r => if matchesId (.vint id) r then
        { r with naslov := SqlVal.vstr X } else r) := by
  have hu : ∀ r, updRow [("naslov", JVal.jstr X)] r = { r with naslov := SqlVal.vstr X } :=
    fun r => rfl
  refine ⟨?_, fun old => rfl, fun old => rfl, fun s old => rfl, fun n old => rfl,
    fun r => ⟨rfl, rfl⟩, ?_⟩
  · rw [updateHandler_eq]
    by_cases h : (db.rows.filter (matchesId (.vint id))).length = 0 <;>
      simp [h, updatedRows]
  · rw [updateHandler_eq]
    by_cases h : (db.rows.filter (matchesId (.vint id))).length = 0 <;>
      simp [h, updatedRows, hu]

/-- C2: after a create, getById at the generated id returns 200 and exactly
the inserted row: the three data columns equal the request's naslov, godina
and zanr, and id and created_at are populated by storage (the generated id
and the insertion clock). -/
theorem create_then_getById (now now2 : Nat) (db : DB) (body : List (String × JVal))
    (hfresh : ∀ r ∈ db.rows, r.id ≠ db.nextId) :
    (getByIdHandler now2 (createHandler now db body).2.1 db.nextId).1.status = 200 ∧
    (getByIdHandler now2 (createHandler now db body).2.1 db.nextId).1.body =
      .jsonRow (some (insertedRow now db body)) := by
  have hold : db.rows.filter (matchesId (.vint db.nextId)) = [] := by
    refine List.filter_eq_nil_iff.mpr ?_
    intro r hr
    simp only [matchesId, decide_eq_true_eq, SqlVal.vint.injEq]
    exact fun hEq => hfresh r hr hEq.symm
  have hnew : matchesId (.vint db.nextId) (insertedRow now db body) = true := by
    simp [matchesId, insertedRow]
  rw [createHandler_eq]
  simp [getByIdHandler_eq, List.filter_append, hold, hnew]

/-- C2 (witness): creating Inception in an empty table and reading id 1 back
returns 200 with the same three fields and populated id and created_at. -/
theorem create_then_getById_witness :
    (getByIdHandler 7 (createHandler 5 ⟨[], 1⟩
        [("naslov", JVal.jstr "Inception"), ("godina", JVal.jint 2010),
         ("zanr", JVal.jstr "Sci-Fi")]).2.1 1).1.status = 200 ∧
    (getByIdHandler 7 (createHandler 5 ⟨[], 1⟩
        [("naslov", JVal.jstr "Inception"), ("godina", JVal.jint 2010),
         ("zanr", JVal.jstr "Sci-Fi")]).2.1 1).1.body =
      .jsonRow (some ⟨1, .vstr "Inception", .vint 2010, .vstr "Sci-Fi", 5⟩) := by
  have h := create_then_getById 5 7 ⟨[], 1⟩
    [("naslov", JVal.jstr "Inception"), ("godina", JVal.jint 2010),
     ("zanr", JVal.jstr "Sci-Fi")] (by intro r hr; simp at hr)
  refine ⟨h.1, ?_⟩
  rw [h.2]
  rfl

/-- C7: create inserts exactly one new row (the old rows followed by the
freshly generated one), advances the id generator, lets storage choose id
and created_at, and responds 201 with the inserted row re-fetched by the
generated id. -/
theorem create_inserts_single_row (now : Nat) (db : DB) (body : List (String × JVal))
    (hfresh : ∀ r ∈ db.rows, r.id ≠ db.nextId) :
    (createHandler now db body).2.1.rows = db.rows ++ [insertedRow now db body] ∧
    (createHandler now db body).2.1.nextId = db.nextId + 1 ∧
    (insertedRow now db body).id = db.nextId ∧
    (insertedRow now db body).created_at = now ∧
    (createHandler now db body).1.status = 201 ∧
    (createHandler now db body).1.body = .jsonRow (some (insertedRow now db body)) := by
  have hold : db.rows.filter (matchesId (.vint db.nextId)) = [] := by
    refine List.filter_eq_nil_iff.mpr ?_
    intro r hr
    simp only [matchesId, decide_eq_true_eq, SqlVal.vint.injEq]
    exact fun hEq => hfresh r hr hEq.symm
  have hnew : matchesId (.vint db.nextId) (insertedRow now db body) = true := by
    simp [matchesId, insertedRow]
  refine ⟨?_, ?_, rfl, rfl, ?_, ?_⟩
  all_goals rw [createHandler_eq]
  all_goals simp [List.filter_append, hold, hnew]

/-- C7 (witness): creating Dune next to an existing row appends exactly one
generated row and responds 201. -/
theorem create_inserts_single_row_witness :
    (createHandler 9 ⟨[⟨1, .vstr "Alien", .vint 1979, .vstr "Horror", 0⟩], 2⟩
        [("naslov", JVal.jstr "Dune")]).2.1.rows =
      [⟨1, .vstr "Alien", .vint 1979, .vstr "Horror", 0⟩,
       ⟨2, .vstr "Dune", .vnull, .vnull, 9⟩] ∧
    (createHandler 9 ⟨[⟨1, .vstr "Alien", .vint 1979, .vstr "Horror", 0⟩], 2⟩
        [("naslov", JVal.jstr "Dune")]).1.status = 201 := by
  have h := create_inserts_single_row 9
    ⟨[⟨1, .vstr "Alien", .vint 1979, .vstr "Horror", 0⟩], 2⟩
    [("naslov", JVal.jstr "Dune")] (by decide)
  exact ⟨by rw [h.1]; rfl, h.2.2.2.2.1⟩

/-- C9: the create handler reads only naslov, godina and zanr from the body:
two requests agreeing on those three keys produce identical responses,
queries and table states, and the inserted row's id and created_at come from
storage, never from the body. -/
theorem create_ignores_extra_fields (now : Nat) (db : DB)
    (b1 b2 : List (String × JVal))
    (hn : b1.lookup "naslov" = b2.lookup "naslov")
    (hg : b1.lookup "godina" = b2.lookup "godina")
    (hz : b1.lookup "zanr" = b2.lookup "zanr") :
    createHandler now db b1 = createHandler now db b2 ∧
    (createHandler now db b1).2.1.rows = db.rows ++ [insertedRow now db b1] ∧
    (insertedRow now db b1).id = db.nextId ∧
    (insertedRow now db b1).created_at = now := by
  refine ⟨?_, by simp [createHandler_eq], rfl, rfl⟩
  rw [createHandler_eq, createHandler_eq]
  simp [insertedRow, hn, hg, hz]

/-- C9 (witness): a body smuggling id and created_at fields produces exactly
the state and response of the body holding only naslov. -/
theorem create_ignores_extra_fields_witness :
    createHandler 3 ⟨[], 10⟩
        [("naslov", JVal.jstr "A"), ("id", JVal.jint 99), ("created_at", JVal.jint 7)] =
      createHandler 3 ⟨[], 10⟩ [("naslov", JVal.jstr "A")] :=
  (create_ignores_extra_fields 3 ⟨[], 10⟩
    [("naslov", JVal.jstr "A"), ("id", JVal.jint 99), ("created_at", JVal.jint 7)]
    [("naslov", JVal.jstr "A")] rfl rfl rfl).1

end Filmovi
